import Mathlib

/-!
Verification development for the ShaggyDog transformation-pipeline app.

The Python sources (`app.py`, `image_processing.py`, `models.py`, `config.py`)
are shallowly embedded below: pure helpers become Lean functions, the
stateful orchestrator becomes an explicit sequence of committed database
snapshots, and every external call (OpenAI vision / image-edit APIs) is
abstracted as an oracle parameter of type `Except String _` carrying either
the returned payload or the raised error's message.
-/

namespace ShaggyDog

/-! ## Character and string helpers (Python semantics on ASCII text) -/

/-- Python word character for `\b` boundaries: `[a-zA-Z0-9_]` (ASCII fragment). -/
def isWordChar (c : Char) : Bool := c.isAlphanum || c == '_'

/-- Python whitespace (`str.strip`, regex `\s`), ASCII fragment. -/
def isPySpace (c : Char) : Bool :=
  c == ' ' || c == '\t' || c == '\n' || c == '\r' || c == '\x0b' || c == '\x0c'

/-- The apostrophe character. -/
def apos : Char := Char.ofNat 39

/-- Lower-case an ASCII string, as Python `str.lower`. -/
def toLowerList (s : List Char) : List Char := s.map Char.toLower

/-- Python `str.strip()`: drop leading and trailing whitespace. -/
def stripList (s : List Char) : List Char :=
  ((s.dropWhile isPySpace).reverse.dropWhile isPySpace).reverse

/-- Substring containment, as Python `pat in s`. -/
def listContainsSub (pat s : List Char) : Bool :=
  match s with
  | [] => pat.isEmpty
  | _ :: rest => pat.isPrefixOf s || listContainsSub pat rest

/-- Does `pat` match at the head of `s`, with `\b` boundaries on both sides?
`prev` is the character just before `s` (none at start of text).  All
patterns used start and end with word characters, so a boundary means the
neighbouring character is absent or a non-word character. -/
def wordAtHead (pat : List Char) (prev : Option Char) (s : List Char) : Bool :=
  pat.isPrefixOf s &&
  (match prev with
   | none => true
   | some c => !isWordChar c) &&
  (match s.drop pat.length with
   | [] => true
   | c :: _ => !isWordChar c)

def containsWordAux (pat : List Char) (prev : Option Char) (s : List Char) : Bool :=
  match s with
  | [] => false
  | c :: rest => wordAtHead pat prev (c :: rest) || containsWordAux pat (some c) rest

/-- Whole-word containment, as Python `re.search(r'\b' + pat + r'\b', s)`. -/
def listContainsWord (pat s : List Char) : Bool := containsWordAux pat none s

/-- Substring containment on `String`s. -/
def strContainsSub (pat s : String) : Bool := listContainsSub pat.toList s.toList

/-! ## Breed taxonomy (`DOG_BREEDS` in `image_processing.py`) -/

/-- The 8 canonical breed keys, in the dict's insertion order. -/
def breedKeys : List (List Char) :=
  [("golden_retriever").toList, ("labrador").toList, ("german_shepherd").toList,
   ("poodle").toList, ("bulldog").toList, ("beagle").toList,
   ("husky").toList, ("dachshund").toList]

/-- `DOG_BREEDS[key]['description']`. -/
def breedDescription : List (List Char × String) :=
  [(("golden_retriever").toList, "friendly and gentle Golden Retriever"),
   (("labrador").toList, "friendly and energetic Labrador"),
   (("german_shepherd").toList, "intelligent and loyal German Shepherd"),
   (("poodle").toList, "elegant and refined Poodle"),
   (("bulldog").toList, "strong and sturdy Bulldog"),
   (("beagle").toList, "friendly and curious Beagle"),
   (("husky").toList, "striking and wolf-like Siberian Husky"),
   (("dachshund").toList, "determined and distinctive Dachshund")]

def descOf (k : List Char) : String := (breedDescription.lookup k).getD ""

/-- `breed_mapping` in `detect_dog_breed`, in insertion order. -/
def breedMapping : List (List Char × List Char) :=
  [(("golden retriever").toList, ("golden_retriever").toList),
   (("goldenretriever").toList, ("golden_retriever").toList),
   (("golden_retriever").toList, ("golden_retriever").toList),
   (("labrador").toList, ("labrador").toList),
   (("labrador retriever").toList, ("labrador").toList),
   (("labradorretriever").toList, ("labrador").toList),
   (("german shepherd").toList, ("german_shepherd").toList),
   (("germanshepherd").toList, ("german_shepherd").toList),
   (("german_shepherd").toList, ("german_shepherd").toList),
   (("alsatian").toList, ("german_shepherd").toList),
   (("poodle").toList, ("poodle").toList),
   (("bulldog").toList, ("bulldog").toList),
   (("english bulldog").toList, ("bulldog").toList),
   (("englishbulldog").toList, ("bulldog").toList),
   (("beagle").toList, ("beagle").toList),
   (("husky").toList, ("husky").toList),
   (("siberian husky").toList, ("husky").toList),
   (("siberianhusky").toList, ("husky").toList),
   (("dachshund").toList, ("dachshund").toList),
   (("wiener dog").toList, ("dachshund").toList),
   (("wienerdog").toList, ("dachshund").toList),
   (("sausage dog").toList, ("dachshund").toList),
   (("sausagedog").toList, ("dachshund").toList)]

def goldenKey : List Char := ("golden_retriever").toList

/-! ## JSON breed extraction
Embeds `re.search(r'\x7b[^\x7d]*"breed"\s*:\s*"([^"]+)"[^\x7d]*\x7d', resp)`:
leftmost `\x7b` wins; inside one brace group the greedy `[^\x7d]*` tries the
latest occurrence of the literal `"breed"` first. -/

def breedLit : List Char := ("\"breed\"").toList

/-- Parse `\s*:\s*"([^"]+)"[^\x7d]*\x7d` starting right after the `"breed"` literal;
returns the captured group. -/
def parseAfterBreed (s : List Char) : Option (List Char) :=
  match s.dropWhile isPySpace with
  | ':' :: s2 =>
    match s2.dropWhile isPySpace with
    | '"' :: s4 =>
      let cap := s4.takeWhile (fun c => c != '"')
      match s4.dropWhile (fun c => c != '"') with
      | '"' :: s5 => if cap.isEmpty then none else if s5.contains '}' then some cap else none
      | _ => none
    | _ => none
  | _ => none

/-- Suffixes of `s` at which the `"breed"` literal occurs before the first
closing brace, in left-to-right order. -/
def breedCandidates (s : List Char) : List (List Char) :=
  match s with
  | [] => []
  | c :: rest =>
    if c == '}' then []
    else
      let tail := breedCandidates rest
      if breedLit.isPrefixOf (c :: rest) then (c :: rest) :: tail else tail

/-- Try candidates right-to-left (greedy `[^\x7d]*` backtracks from the longest). -/
def tryBreedCandidates (cands : List (List Char)) : Option (List Char) :=
  match cands with
  | [] => none
  | suf :: rest =>
    match tryBreedCandidates rest with
    | some v => some v
    | none => parseAfterBreed (suf.drop breedLit.length)

/-- Leftmost match of the breed-JSON regex over the whole response. -/
def jsonBreedSearch (s : List Char) : Option (List Char) :=
  match s with
  | [] => none
  | c :: rest =>
    if c == '{' then
      match tryBreedCandidates (breedCandidates rest) with
      | some v => some v
      | none => jsonBreedSearch rest
    else jsonBreedSearch rest

/-! ## Breed-response parsing (`detect_dog_breed`, steps 1-5) -/

/-- Step 1: JSON field extraction; accept exact canonical keys or synonyms. -/
def jsonStep (resp : List Char) : Option (List Char) :=
  match jsonBreedSearch resp with
  | none => none
  | some v =>
    let j := toLowerList (stripList v)
    if breedKeys.contains j then some j
    else breedMapping.lookup j

/-- Step 2: whole-word match of a canonical key (underscore or space form). -/
def directKeyMatch (resp : List Char) : Option (List Char) :=
  breedKeys.findSome? fun k =>
    if listContainsWord k resp then some k
    else if listContainsWord (k.map fun c => if c == '_' then ' ' else c) resp then some k
    else none

/-- Step 3: whole-word match against the synonym table. -/
def mappingWordMatch (resp : List Char) : Option (List Char) :=
  breedMapping.findSome? fun p => if listContainsWord p.1 resp then some p.2 else none

def sorryLit : List Char := ("sorry").toList
def cantHelpLit : List Char := ['c', 'a', 'n', Char.ofNat 39, 't', ' ', 'h', 'e', 'l', 'p']

/-- Steps 1-5 of `detect_dog_breed`'s response parsing, on the lower-cased
response.  `randIdx` models the unseeded `random.choice` by an index into
the canonical key list. -/
def parseBreedResponse (resp : List Char) (randIdx : Nat) : List Char :=
  match jsonStep resp with
  | some k => k
  | none =>
    match directKeyMatch resp with
    | some k => k
    | none =>
      match mappingWordMatch resp with
      | some k => k
      | none =>
        if listContainsSub sorryLit resp || listContainsSub cantHelpLit resp then
          breedKeys.getD (randIdx % breedKeys.length) goldenKey
        else goldenKey

/-- `detect_dog_breed`.  `apiKey` is `Config.OPENAI_API_KEY` (raising on
`none` inside the guarded region); `visionResult` is the outcome of the
chat-completions call (content of the chosen model's reply, or the raised
error's message — the primary/fallback model pair is one combined outcome).
Every raised error is caught by the outer handler, which returns the fixed
default.  Returns `(selected_breed, DOG_BREEDS[selected_breed]['description'])`. -/
def detect_dog_breed (apiKey : Option String) (visionResult : Except String String)
    (randIdx : Nat) : String × String :=
  match apiKey with
  | none => (String.mk goldenKey, descOf goldenKey)
  | some _ =>
    match visionResult with
    | .error _ => (String.mk goldenKey, descOf goldenKey)
    | .ok raw =>
      let resp := toLowerList (stripList raw.toList)
      let k := parseBreedResponse resp randIdx
      (String.mk k, descOf k)

/-! ## Data model (`models.py`: `GeneratedImage`)
Image payloads are byte lists; `none` is SQL NULL. -/

structure GeneratedImage where
  id : Nat
  user_id : Nat
  original_image_data : List Nat
  breed_detected : Option String := none
  status : String := "uploaded"
  error_message : Option String := none
  image_1_data : Option (List Nat) := none
  image_2_data : Option (List Nat) := none
  final_dog_image_data : Option (List Nat) := none
  batch_id : Option String := none
  pipeline_type : Option String := none
deriving DecidableEq, Repr

instance : Inhabited GeneratedImage := ⟨{ id := 0, user_id := 0, original_image_data := [] }⟩

/-! ## Upload (`app.py`: `upload`)
Only the record-creation part is state: for `pipeline_type = "both"` the two
rows are added to the session and committed together in one
`db.session.commit()`; otherwise one row is created.  `pipelineForm` is
`request.form.get('pipeline_type', 'gpt_only')`'s source value. -/

def upload_created_jobs (uid : Nat) (fileData : List Nat) (pipelineForm : Option String)
    (timestamp : String) (id1 id2 : Nat) : List GeneratedImage :=
  let pipeline_type := pipelineForm.getD ("gpt_only")
  if pipeline_type = "both" then
    let batch := toString uid ++ "_" ++ timestamp
    [{ id := id1, user_id := uid, original_image_data := fileData,
       batch_id := some batch, pipeline_type := some ("dalle_gpt") },
     { id := id2, user_id := uid, original_image_data := fileData,
       batch_id := some batch, pipeline_type := some ("gpt_only") }]
  else
    [{ id := id1, user_id := uid, original_image_data := fileData,
       pipeline_type := some pipeline_type }]

/-! ## Pipeline (`image_processing.py`: `generate_transformation_images`) -/

structure GenImages where
  image_1 : List Nat
  image_2 : List Nat
  final : List Nat
deriving DecidableEq, Repr

/-- `generate_transformation_images`, with each external edit call abstracted
as an oracle.  `dalle1`/`gpt1` are the two possible stage-1 calls on the
original image; `dalle2`/`gpt2` take stage 1's output; `finEnhance` is
`finalize_with_gpt_image1_enhance_only` and `finBody` is
`finalize_with_gpt_image1`, each taking stage 2's output.  Stage errors are
re-raised wrapped with the stage identity, exactly as in the source. -/
def generate_transformation_images (pipeline_type : String)
    (dalle1 gpt1 : Except String (List Nat))
    (dalle2 gpt2 : List Nat → Except String (List Nat))
    (finEnhance finBody : List Nat → Except String (List Nat)) :
    Except String GenImages :=
  match (if pipeline_type = "dalle_gpt" then dalle1 else gpt1) with
  | .error e => .error ("Stage 1 Error (adding ears): " ++ e)
  | .ok b1 =>
    match (if pipeline_type = "dalle_gpt" then dalle2 b1 else gpt2 b1) with
    | .error e => .error ("Stage 2 Error (adding snout): " ++ e)
    | .ok b2 =>
      match (if pipeline_type = "dalle_gpt" then finEnhance b2 else finBody b2) with
      | .error e => .error ("Stage 3 Error (finalizing with gpt-image-1): " ++ e)
      | .ok bf => .ok { image_1 := b1, image_2 := b2, final := bf }

/-- Every edit/finalize function first checks `Config.OPENAI_API_KEY` and
raises `ValueError("OPENAI_API_KEY is not set. ...")` before contacting the
API; with a key present the call's outcome is the oracle's. -/
def stage_call (apiKey : Option String) (result : Except String (List Nat)) :
    Except String (List Nat) :=
  match apiKey with
  | none => .error ("OPENAI_API_KEY is not set. Please check your .env file.")
  | some _ => result

/-! ## Orchestrator (`app.py`: `process_image_generation`)
Each `db.session.commit()` persists the in-memory record; the exception
handler re-loads the last committed state and overwrites only `status` and
`error_message`.  We model the run as the list of committed snapshots. -/

def process_commits (record : GeneratedImage) (breed : String)
    (gen : Except String GenImages) : List GeneratedImage :=
  let c1 := { record with status := "detecting" }
  let c2 := { c1 with breed_detected := some breed, status := "generating_1" }
  match gen with
  | .ok imgs =>
    let c3 := { c2 with image_1_data := some imgs.image_1, status := "generating_2" }
    let c4 := { c3 with image_2_data := some imgs.image_2, status := "generating_final" }
    let c5 := { c4 with final_dog_image_data := some imgs.final, status := "completed" }
    [c1, c2, c3, c4, c5]
  | .error e =>
    [c1, c2, { c2 with status := "error", error_message := some ("Error: " ++ e) }]

/-- The finally-persisted job state: the last committed snapshot. -/
def process_final (record : GeneratedImage) (breed : String)
    (gen : Except String GenImages) : GeneratedImage :=
  (process_commits record breed gen).getLastD record

/-- One whole background run for a job: breed detection (never raising),
then the three-stage pipeline, then state reconciliation.  `pt` is the
`pipeline_type` thread argument. -/
def run_job (record : GeneratedImage) (pt : String) (apiKey : Option String)
    (visionResult : Except String String) (randIdx : Nat)
    (dalle1 gpt1 : Except String (List Nat))
    (dalle2 gpt2 finEnhance finBody : List Nat → Except String (List Nat)) :
    List GeneratedImage :=
  let breed := (detect_dog_breed apiKey visionResult randIdx).1
  let gen := generate_transformation_images pt
    (stage_call apiKey dalle1) (stage_call apiKey gpt1)
    (fun b => stage_call apiKey (dalle2 b)) (fun b => stage_call apiKey (gpt2 b))
    (fun b => stage_call apiKey (finEnhance b)) (fun b => stage_call apiKey (finBody b))
  process_commits record breed gen

/-- `run_job`'s final persisted state. -/
def run_job_final (record : GeneratedImage) (pt : String) (apiKey : Option String)
    (visionResult : Except String String) (randIdx : Nat)
    (dalle1 gpt1 : Except String (List Nat))
    (dalle2 gpt2 finEnhance finBody : List Nat → Except String (List Nat)) :
    GeneratedImage :=
  (run_job record pt apiKey visionResult randIdx dalle1 gpt1 dalle2 gpt2
    finEnhance finBody).getLastD record

/-- The database as a map from ids to rows; one background run rewrites only
the row it was launched for (`GIImage.query.get(image_id)`), leaving every
other id untouched.  A missing row makes the run return immediately. -/
def db_run_job (db : Nat → Option GeneratedImage) (image_id : Nat) (pt : String)
    (apiKey : Option String) (visionResult : Except String String) (randIdx : Nat)
    (dalle1 gpt1 : Except String (List Nat))
    (dalle2 gpt2 finEnhance finBody : List Nat → Except String (List Nat)) :
    Nat → Option GeneratedImage :=
  match db image_id with
  | none => db
  | some rec => fun i =>
      if i = image_id then
        some (run_job_final rec pt apiKey visionResult randIdx dalle1 gpt1
          dalle2 gpt2 finEnhance finBody)
      else db i

/-! ## Image retrieval (`app.py`: `serve_image`) -/

inductive ServeResult where
  | image (data : List Nat) (mimetype : String)
  | redirect (flashMsg : String)
  | notFound
deriving DecidableEq, Repr

/-- `if not image_data: ... else Response(image_data, mimetype='image/png')`.
Python falsiness: missing (`None`) or empty bytes. -/
def serve_data (od : Option (List Nat)) : ServeResult :=
  match od with
  | none => .redirect ("Image not found")
  | some d => if d.isEmpty then .redirect ("Image not found") else .image d ("image/png")

def serve_image (db : Nat → Option GeneratedImage) (currentUserId : Nat)
    (image_id : Nat) (image_type : String) : ServeResult :=
  match db image_id with
  | none => .notFound
  | some rec =>
    if rec.user_id ≠ currentUserId then .redirect ("Unauthorized access")
    else if image_type = "original" then serve_data (some rec.original_image_data)
    else if image_type = "transition1" then serve_data rec.image_1_data
    else if image_type = "transition2" then serve_data rec.image_2_data
    else if image_type = "final" then serve_data rec.final_dog_image_data
    else .redirect ("Invalid image type")

/-! ## Size normalizer (`image_processing.py`: `ensure_png_under_4mb`)
A PNG file on disk is its pixel dimensions plus its encoded byte size; the
re-encoding of the 512×512 downscale is an oracle byte count. -/

structure PngFile where
  width : Nat
  height : Nat
  byteSize : Nat
deriving DecidableEq, Repr

/-- `3.5 * 1024 * 1024` bytes (exact in floating point). -/
def max_size_bytes : Nat := 3670016

/-- Returns the possibly-rewritten file and the reported actual size. -/
def ensure_png_under_4mb (encode512 : Nat) (f : PngFile) : PngFile × Nat :=
  if f.byteSize ≤ max_size_bytes then (f, 1024)
  else ({ width := 512, height := 512, byteSize := encode512 }, 512)

/-! ## Mask generator (`image_processing.py`: `create_face_mask`)
`ImageDraw.ellipse` is modelled as the geometric ellipse with the given
integer bounding box; alpha 0 = transparent/editable, 255 = opaque. -/

/-- Membership of `(x, y)` in the closed ellipse with bounding box
`[l, t, r, b]`, via `B²·(2x-(l+r))² + A²·(2y-(t+b))² ≤ A²·B²` where
`A = r - l`, `B = b - t`. -/
def in_ellipse (l t r b x y : Int) : Bool :=
  decide ((b - t) * (b - t) * (2 * x - (l + r)) * (2 * x - (l + r))
    + (r - l) * (r - l) * (2 * y - (t + b)) * (2 * y - (t + b))
    ≤ (r - l) * (r - l) * (b - t) * (b - t))

structure Mask where
  size : Nat
  alpha : Int → Int → Nat

/-- `create_face_mask`: start fully opaque, draw one transparent ellipse.
`int(target_size * 0.5)` and `int(target_size * 0.2)` are the floor
divisions `S / 2` and `S / 5` for every realistic size. -/
def create_face_mask (target_size : Nat) : Mask :=
  let face_region_size := target_size / 2
  let face_top_offset := target_size / 5
  let face_left := (target_size - face_region_size) / 2
  let face_top := face_top_offset
  let face_right := face_left + face_region_size
  let face_bottom := face_top + face_region_size
  { size := target_size,
    alpha := fun x y =>
      if in_ellipse (face_left : Int) (face_top : Int) (face_right : Int)
          (face_bottom : Int) x y then 0 else 255 }

/-! ## Theorems -/

/-- When steps 1-3 of the parser find nothing and the refusal test fires,
the parser picks the canonical key indexed by the randomness source. -/
theorem parseBreedResponse_refusal (resp : List Char) (randIdx : Nat)
    (h1 : jsonStep resp = none) (h2 : directKeyMatch resp = none)
    (h3 : mappingWordMatch resp = none)
    (h4 : (listContainsSub sorryLit resp || listContainsSub cantHelpLit resp) = true) :
    parseBreedResponse resp randIdx = breedKeys.getD (randIdx % breedKeys.length) goldenKey := by
  unfold parseBreedResponse
  rw [h1, h2, h3]
  simp [h4]

/-- `getD` at an in-range index lands in the list. -/
theorem breedKeys_getD_mem (i : Nat) (h : i < breedKeys.length) :
    breedKeys.getD i goldenKey ∈ breedKeys := by
  rw [List.getD_eq_getElem?_getD, List.getElem?_eq_getElem h, Option.getD_some]
  exact List.getElem_mem h

/-- C4: the breed classifier's response parsing follows the specified
first-match-wins order and outcomes: a response containing a JSON
`"breed": "husky"` field returns `husky`; a response containing the
standalone phrase "Siberian Husky" with no JSON returns `husky`; a refusal
response ("Sorry, I can't help with that") returns a canonical key from the
8-key set for every draw of the randomness source, never a crash; and
unparseable gibberish returns `golden_retriever`. -/
theorem C4_classifier_parsing_cases :
    detect_dog_breed (some ("k")) (Except.ok ("\x7b\"breed\": \"husky\"\x7d")) 0
      = ("husky", "striking and wolf-like Siberian Husky")
    ∧ detect_dog_breed (some ("k")) (Except.ok ("You look like a Siberian Husky today")) 0
      = ("husky", "striking and wolf-like Siberian Husky")
    ∧ (∀ randIdx : Nat,
        (detect_dog_breed (some ("k"))
          (Except.ok (String.mk (("Sorry, I can").toList ++ [apos] ++ ("t help with that").toList)))
          randIdx).1 ∈ breedKeys.map String.mk)
    ∧ detect_dog_breed (some ("k")) (Except.ok ("qwerty zxcv")) 0
      = ("golden_retriever", "friendly and gentle Golden Retriever") := by
  refine ⟨by decide, by decide, ?_, by decide⟩
  intro randIdx
  have hmod : randIdx % breedKeys.length < breedKeys.length :=
    Nat.mod_lt _ (by decide)
  have hparse := parseBreedResponse_refusal
    (toLowerList (stripList (String.mk (("Sorry, I can").toList ++ [apos]
      ++ ("t help with that").toList)).toList)) randIdx
    (by decide) (by decide) (by decide) (by decide)
  show String.mk (parseBreedResponse _ randIdx) ∈ breedKeys.map String.mk
  rw [hparse]
  exact List.mem_map_of_mem _ (breedKeys_getD_mem _ hmod)

/-- C4 witness: the refusal case instantiated at a concrete random draw. -/
theorem C4_classifier_parsing_cases_witness :
    (detect_dog_breed (some ("k"))
      (Except.ok (String.mk (("Sorry, I can").toList ++ [apos] ++ ("t help with that").toList)))
      3).1 ∈ breedKeys.map String.mk :=
  C4_classifier_parsing_cases.2.2.1 3

/-- C5: breed classification never raises past the classifier: it is a
total function, and every raised failure mode — the missing-credential
`ValueError` as well as total external API failure — is caught and resolved
to the fixed default `golden_retriever` with its description. -/
theorem C5_classifier_never_raises (visionResult : Except String String)
    (randIdx : Nat) (err apiKey : String) :
    detect_dog_breed none visionResult randIdx
      = ("golden_retriever", "friendly and gentle Golden Retriever")
    ∧ detect_dog_breed (some apiKey) (Except.error err) randIdx
      = ("golden_retriever", "friendly and gentle Golden Retriever") :=
  ⟨rfl, rfl⟩

/-- C5 witness: both failure modes at concrete inputs. -/
theorem C5_classifier_never_raises_witness :
    detect_dog_breed none (Except.ok ("beagle")) 0
      = ("golden_retriever", "friendly and gentle Golden Retriever")
    ∧ detect_dog_breed (some ("k")) (Except.error ("network down")) 0
      = ("golden_retriever", "friendly and gentle Golden Retriever") :=
  C5_classifier_never_raises (Except.ok ("beagle")) 0 ("network down") ("k")

/-- C7: every image-retrieval request for a job's image slot from an
authenticated account that does not equal the job's owner is rejected with
the "Unauthorized access" redirect — no image bytes are returned — no
matter which slot name was requested or whether it is populated. -/
theorem C7_ownership_rejection (db : Nat → Option GeneratedImage)
    (currentUserId image_id : Nat) (image_type : String) (rec : GeneratedImage)
    (hrec : db image_id = some rec) (hown : rec.user_id ≠ currentUserId) :
    serve_image db currentUserId image_id image_type = .redirect ("Unauthorized access") := by
  unfold serve_image
  rw [hrec]
  simp [hown]

/-- C7 witness: a populated `final` slot owned by user 2 is refused to user 1. -/
theorem C7_ownership_rejection_witness :
    serve_image
      (fun i => if i = 5 then
        some { id := 5, user_id := 2, original_image_data := [7],
               final_dog_image_data := some [9] } else none)
      1 5 ("final") = .redirect ("Unauthorized access") :=
  C7_ownership_rejection _ 1 5 ("final") _ rfl (by decide)

/-- C10: for a request by the job's owner, a slot name outside
`original/transition1/transition2/final` is rejected with the "Invalid
image type" redirect; a valid slot whose image is not yet set is rejected
with the "Image not found" redirect; and raw bytes with content type
`image/png` come back only for a valid slot name with (non-empty) data
present. -/
theorem C10_owner_slot_handling (db : Nat → Option GeneratedImage)
    (currentUserId image_id : Nat) (image_type : String) (rec : GeneratedImage)
    (hrec : db image_id = some rec) (hown : rec.user_id = currentUserId) :
    ((image_type ≠ "original" ∧ image_type ≠ "transition1"
        ∧ image_type ≠ "transition2" ∧ image_type ≠ "final") →
      serve_image db currentUserId image_id image_type = .redirect ("Invalid image type"))
    ∧ (image_type = "transition1" → rec.image_1_data = none →
        serve_image db currentUserId image_id image_type = .redirect ("Image not found"))
    ∧ (image_type = "transition2" → rec.image_2_data = none →
        serve_image db currentUserId image_id image_type = .redirect ("Image not found"))
    ∧ (image_type = "final" → rec.final_dog_image_data = none →
        serve_image db currentUserId image_id image_type = .redirect ("Image not found"))
    ∧ (∀ d m, serve_image db currentUserId image_id image_type = .image d m →
        m = "image/png" ∧ d ≠ [] ∧
        (image_type = "original" ∨ image_type = "transition1"
          ∨ image_type = "transition2" ∨ image_type = "final")) := by
  have hserve : serve_image db currentUserId image_id image_type =
      (if image_type = "original" then serve_data (some rec.original_image_data)
       else if image_type = "transition1" then serve_data rec.image_1_data
       else if image_type = "transition2" then serve_data rec.image_2_data
       else if image_type = "final" then serve_data rec.final_dog_image_data
       else .redirect ("Invalid image type")) := by
    unfold serve_image
    rw [hrec]
    simp [hown]
  refine ⟨?_, ?_, ?_, ?_, ?_⟩
  · rintro ⟨h1, h2, h3, h4⟩
    rw [hserve, if_neg h1, if_neg h2, if_neg h3, if_neg h4]
  · intro ht hnone
    subst ht
    rw [hserve]
    simp [serve_data, hnone]
  · intro ht hnone
    subst ht
    rw [hserve]
    simp [serve_data, hnone]
  · intro ht hnone
    subst ht
    rw [hserve]
    simp [serve_data, hnone]
  · intro d m himg
    rw [hserve] at himg
    by_cases h1 : image_type = "original"
    · rw [if_pos h1] at himg
      simp only [serve_data] at himg
      by_cases he : rec.original_image_data.isEmpty
      · simp [he] at himg
      · rw [if_neg he] at himg
        cases himg
        exact ⟨rfl, by simpa using he, Or.inl h1⟩
    · rw [if_neg h1] at himg
      by_cases h2 : image_type = "transition1"
      · rw [if_pos h2] at himg
        match hd : rec.image_1_data with
        | none => rw [hd] at himg; exact absurd himg (by simp [serve_data])
        | some d0 =>
          rw [hd] at himg
          simp only [serve_data] at himg
          by_cases he : d0.isEmpty
          · simp [he] at himg
          · rw [if_neg he] at himg
            cases himg
            exact ⟨rfl, by simpa using he, Or.inr (Or.inl h2)⟩
      · rw [if_neg h2] at himg
        by_cases h3 : image_type = "transition2"
        · rw [if_pos h3] at himg
          match hd : rec.image_2_data with
          | none => rw [hd] at himg; exact absurd himg (by simp [serve_data])
          | some d0 =>
            rw [hd] at himg
            simp only [serve_data] at himg
            by_cases he : d0.isEmpty
            · simp [he] at himg
            · rw [if_neg he] at himg
              cases himg
              exact ⟨rfl, by simpa using he, Or.inr (Or.inr (Or.inl h3))⟩
        · rw [if_neg h3] at himg
          by_cases h4 : image_type = "final"
          · rw [if_pos h4] at himg
            match hd : rec.final_dog_image_data with
            | none => rw [hd] at himg; exact absurd himg (by simp [serve_data])
            | some d0 =>
              rw [hd] at himg
              simp only [serve_data] at himg
              by_cases he : d0.isEmpty
              · simp [he] at himg
              · rw [if_neg he] at himg
                cases himg
                exact ⟨rfl, by simpa using he, Or.inr (Or.inr (Or.inr h4))⟩
          · rw [if_neg h4] at himg
            exact absurd himg (by simp)

/-- C10 witness: an owner's request for a bogus slot, for an unpopulated
valid slot, and the characterization applied to a populated slot. -/
theorem C10_owner_slot_handling_witness :
    serve_image
      (fun i => if i = 5 then
        some { id := 5, user_id := 1, original_image_data := [7] } else none)
      1 5 ("bogus") = .redirect ("Invalid image type")
    ∧ serve_image
      (fun i => if i = 5 then
        some { id := 5, user_id := 1, original_image_data := [7] } else none)
      1 5 ("transition1") = .redirect ("Image not found") := by
  constructor
  · exact (C10_owner_slot_handling _ 1 5 ("bogus") _ rfl rfl).1
      (by refine ⟨?_, ?_, ?_, ?_⟩ <;> decide)
  · exact (C10_owner_slot_handling _ 1 5 ("transition1") _ rfl rfl).2.1 rfl rfl

/-- C8: the face mask generator produces an `S×S` mask whose transparent
(editable) region is exactly one centered ellipse of width and height
`S/2` with top edge at `S/5`; at `S = 1000` the transparent ellipse's
bounding box is `x ∈ [250, 750]`, `y ∈ [200, 700]`, and every pixel outside
that ellipse is fully opaque (alpha 255). -/
theorem C8_face_mask_geometry :
    (create_face_mask 1000).size = 1000
    ∧ (∀ x y : Int,
        ((create_face_mask 1000).alpha x y = 0 ↔ in_ellipse 250 200 750 700 x y = true)
        ∧ (in_ellipse 250 200 750 700 x y = false → (create_face_mask 1000).alpha x y = 255)
        ∧ (in_ellipse 250 200 750 700 x y = true →
            250 ≤ x ∧ x ≤ 750 ∧ 200 ≤ y ∧ y ≤ 700))
    ∧ (∀ S : Nat, ∀ x y : Int,
        ((create_face_mask S).alpha x y = 0 ↔
          in_ellipse (((S - S / 2) / 2 : Nat) : Int) ((S / 5 : Nat) : Int)
            ((((S - S / 2) / 2 + S / 2 : Nat)) : Int) (((S / 5 + S / 2 : Nat)) : Int)
            x y = true)
        ∧ ((create_face_mask S).alpha x y = 0 ∨ (create_face_mask S).alpha x y = 255)) := by
  refine ⟨rfl, ?_, ?_⟩
  · intro x y
    have halpha : (create_face_mask 1000).alpha x y
        = if in_ellipse 250 200 750 700 x y then 0 else 255 := by
      show (if in_ellipse ((250 : Nat) : Int) ((200 : Nat) : Int)
          ((750 : Nat) : Int) ((700 : Nat) : Int) x y then 0 else 255)
        = if in_ellipse 250 200 750 700 x y then 0 else 255
      norm_num
    refine ⟨?_, ?_, ?_⟩
    · rw [halpha]
      by_cases h : in_ellipse 250 200 750 700 x y <;> simp [h]
    · intro h
      rw [halpha, h]
      simp
    · intro h
      have hineq : (700 - 200) * (700 - 200) * (2 * x - (250 + 750)) * (2 * x - (250 + 750))
          + (750 - 250) * (750 - 250) * (2 * y - (200 + 700)) * (2 * y - (200 + 700))
          ≤ (750 - 250) * (750 - 250) * (700 - 200) * (700 - 200) := by
        have := of_decide_eq_true h
        exact this
      norm_num at hineq
      refine ⟨?_, ?_, ?_, ?_⟩
      · nlinarith [hineq, mul_self_nonneg (2 * y - 900), mul_self_nonneg (2 * x - 1000 + 500)]
      · nlinarith [hineq, mul_self_nonneg (2 * y - 900), mul_self_nonneg (2 * x - 1000 - 500)]
      · nlinarith [hineq, mul_self_nonneg (2 * x - 1000), mul_self_nonneg (2 * y - 900 + 500)]
      · nlinarith [hineq, mul_self_nonneg (2 * x - 1000), mul_self_nonneg (2 * y - 900 - 500)]
  · intro S x y
    constructor
    · show (if in_ellipse _ _ _ _ x y then 0 else 255) = 0 ↔ _
      by_cases h : in_ellipse (((S - S / 2) / 2 : Nat) : Int) ((S / 5 : Nat) : Int)
          ((((S - S / 2) / 2 + S / 2 : Nat)) : Int) (((S / 5 + S / 2 : Nat)) : Int) x y
      · push_cast at h ⊢
        simp [h]
      · push_cast at h ⊢
        simp [h]
    · show (if c : _ then _ else _) = 0 ∨ (if c : _ then _ else _) = 255
      by_cases h : in_ellipse (((S - S / 2) / 2 : Nat) : Int) ((S / 5 : Nat) : Int)
          ((((S - S / 2) / 2 + S / 2 : Nat)) : Int) (((S / 5 + S / 2 : Nat)) : Int) x y
      · left; push_cast at h ⊢; simp [h]
      · right; push_cast at h ⊢; simp [h]

/-- C8 witness: the mask at 1000 is transparent at the ellipse centre and
opaque at the corner, and the bounding-box bound holds at the centre. -/
theorem C8_face_mask_geometry_witness :
    (create_face_mask 1000).alpha 500 450 = 0
    ∧ (create_face_mask 1000).alpha 0 0 = 255
    ∧ (250 ≤ (500 : Int) ∧ (500 : Int) ≤ 750 ∧ 200 ≤ (450 : Int) ∧ (450 : Int) ≤ 700) := by
  refine ⟨?_, ?_, ?_⟩
  · exact ((C8_face_mask_geometry.2.1 500 450).1).mpr (by decide)
  · exact (C8_face_mask_geometry.2.1 0 0).2.1 (by decide)
  · exact (C8_face_mask_geometry.2.1 500 450).2.2 (by decide)

/-- C2 counterexample: the normalizer is not idempotent in the claimed
sense.  A 4MB 1000×1000 input is demoted to 512×512 (report 512) with a
realistic re-encoded byte size of 800000; running the normalizer again on
that very output reports 1024, not 512, because the report is driven only
by the byte size against the threshold. -/
theorem C2_size_normalizer_counterexample :
    (ensure_png_under_4mb 800000 { width := 1000, height := 1000, byteSize := 4000000 }).2 = 512
    ∧ (ensure_png_under_4mb 800000
        (ensure_png_under_4mb 800000 { width := 1000, height := 1000, byteSize := 4000000 }).1).2
      = 1024
    ∧ (1024 : Nat) ≠ 512 := by decide

/-- C2 amended: the normalizer reports 1024 whenever the encoded byte size
is at most the 3.5MB threshold and otherwise re-encodes at 512×512 and
reports 512; re-running it on a demoted output whose encoding fits the
threshold leaves the file unchanged (no further shrinkage) but reports
1024, not 512 — the report depends only on byte size, never on pixel
dimensions. -/
theorem C2_size_normalizer_amended (encode512 : Nat) (f : PngFile) :
    (f.byteSize ≤ max_size_bytes → ensure_png_under_4mb encode512 f = (f, 1024))
    ∧ (max_size_bytes < f.byteSize →
        ensure_png_under_4mb encode512 f
          = ({ width := 512, height := 512, byteSize := encode512 }, 512))
    ∧ (max_size_bytes < f.byteSize → encode512 ≤ max_size_bytes →
        ensure_png_under_4mb encode512 (ensure_png_under_4mb encode512 f).1
          = ((ensure_png_under_4mb encode512 f).1, 1024)) := by
  refine ⟨?_, ?_, ?_⟩
  · intro h
    unfold ensure_png_under_4mb
    rw [if_pos h]
  · intro h
    unfold ensure_png_under_4mb
    rw [if_neg (by omega)]
  · intro h henc
    have h2 : ensure_png_under_4mb encode512 f
        = ({ width := 512, height := 512, byteSize := encode512 }, 512) := by
      unfold ensure_png_under_4mb
      rw [if_neg (by omega)]
    rw [h2]
    simp [ensure_png_under_4mb, henc]

/-- C2 witness: the amended statement applied to the counterexample input. -/
theorem C2_size_normalizer_amended_witness :
    ensure_png_under_4mb 800000
        (ensure_png_under_4mb 800000 { width := 1000, height := 1000, byteSize := 4000000 }).1
      = ((ensure_png_under_4mb 800000 { width := 1000, height := 1000, byteSize := 4000000 }).1, 1024) :=
  (C2_size_normalizer_amended 800000 { width := 1000, height := 1000, byteSize := 4000000 }).2.2
    (by decide) (by decide)

/-- C1 counterexample: a StrategyB job whose stage 1 yields bytes `[11]`,
stage 2 yields `[22]`, and stage 3 raises "connection reset".  In the final
persisted state `stage1Image` and `stage2Image` are NOT `[11]`/`[22]` —
they are unset — because stage outputs are written to the database only
after all three stages return; the run does fail with the stage-3 error. -/
theorem C1_stage3_failure_counterexample :
    (run_job_final
        { id := 1, user_id := 1, original_image_data := [0],
          pipeline_type := some ("gpt_only") }
        ("gpt_only") (some ("key")) (Except.ok ("beagle")) 0
        (Except.error ("unused")) (Except.ok [11])
        (fun _ => Except.error ("unused")) (fun _ => Except.ok [22])
        (fun _ => Except.error ("unused")) (fun _ => Except.error ("connection reset"))).status
      = "error"
    ∧ (run_job_final
        { id := 1, user_id := 1, original_image_data := [0],
          pipeline_type := some ("gpt_only") }
        ("gpt_only") (some ("key")) (Except.ok ("beagle")) 0
        (Except.error ("unused")) (Except.ok [11])
        (fun _ => Except.error ("unused")) (fun _ => Except.ok [22])
        (fun _ => Except.error ("unused")) (fun _ => Except.error ("connection reset"))).image_1_data
      = none
    ∧ (run_job_final
        { id := 1, user_id := 1, original_image_data := [0],
          pipeline_type := some ("gpt_only") }
        ("gpt_only") (some ("key")) (Except.ok ("beagle")) 0
        (Except.error ("unused")) (Except.ok [11])
        (fun _ => Except.error ("unused")) (fun _ => Except.ok [22])
        (fun _ => Except.error ("unused")) (fun _ => Except.error ("connection reset"))).image_2_data
      = none
    ∧ (run_job_final
        { id := 1, user_id := 1, original_image_data := [0],
          pipeline_type := some ("gpt_only") }
        ("gpt_only") (some ("key")) (Except.ok ("beagle")) 0
        (Except.error ("unused")) (Except.ok [11])
        (fun _ => Except.error ("unused")) (fun _ => Except.ok [22])
        (fun _ => Except.error ("unused")) (fun _ => Except.error ("connection reset"))).error_message
      = some ("Error: Stage 3 Error (finalizing with gpt-image-1): connection reset") := by
  refine ⟨?_, ?_, ?_, ?_⟩ <;> decide

/-- C1 amended: on a StrategyB job whose stage 1 and stage 2 edit calls
succeed and whose stage 3 edit call raises "connection reset", the final
persisted state has status Failed (`error`) with `errorDetail` containing
both "Stage 3" and "connection reset", `finalImage` unset — but
`stage1Image` and `stage2Image` are also unset, since stage outputs are
persisted only after the whole three-stage pipeline returns; whatever was
already persisted (the detected breed, the original image) is kept, not
rolled back. -/
theorem C1_stage3_failure_amended (rec : GeneratedImage) (breed : String)
    (b1 b2 : List Nat) (dalle1 : Except String (List Nat))
    (dalle2 finEnhance : List Nat → Except String (List Nat))
    (hr1 : rec.image_1_data = none) (hr2 : rec.image_2_data = none)
    (hr3 : rec.final_dog_image_data = none)
    (final : GeneratedImage)
    (hfinal : final = process_final rec breed
      (generate_transformation_images ("gpt_only") dalle1 (Except.ok b1)
        dalle2 (fun _ => Except.ok b2) finEnhance
        (fun _ => Except.error ("connection reset")))) :
    final.status = "error"
    ∧ final.image_1_data = none
    ∧ final.image_2_data = none
    ∧ final.final_dog_image_data = none
    ∧ final.breed_detected = some breed
    ∧ final.original_image_data = rec.original_image_data
    ∧ ∃ msg, final.error_message = some msg
        ∧ strContainsSub ("Stage 3") msg = true
        ∧ strContainsSub ("connection reset") msg = true := by
  subst hfinal
  have hgen : generate_transformation_images ("gpt_only") dalle1 (Except.ok b1)
      dalle2 (fun _ => Except.ok b2) finEnhance
      (fun _ => Except.error ("connection reset"))
      = Except.error ("Stage 3 Error (finalizing with gpt-image-1): connection reset") := rfl
  rw [hgen]
  exact ⟨rfl, hr1, hr2, hr3, rfl, rfl,
    ("Error: Stage 3 Error (finalizing with gpt-image-1): connection reset"), rfl,
    by decide, by decide⟩

/-- C1 amended witness: the amended statement at the counterexample's input. -/
theorem C1_stage3_failure_amended_witness :
    (process_final
        { id := 1, user_id := 1, original_image_data := [0],
          pipeline_type := some ("gpt_only") } ("beagle")
        (generate_transformation_images ("gpt_only") (Except.error ("unused"))
          (Except.ok [11]) (fun _ => Except.error ("unused"))
          (fun _ => Except.ok [22]) (fun _ => Except.error ("unused"))
          (fun _ => Except.error ("connection reset")))).status = "error"
    ∧ (process_final
        { id := 1, user_id := 1, original_image_data := [0],
          pipeline_type := some ("gpt_only") } ("beagle")
        (generate_transformation_images ("gpt_only") (Except.error ("unused"))
          (Except.ok [11]) (fun _ => Except.error ("unused"))
          (fun _ => Except.ok [22]) (fun _ => Except.error ("unused"))
          (fun _ => Except.error ("connection reset")))).breed_detected = some ("beagle") :=
  ⟨(C1_stage3_failure_amended _ ("beagle") [11] [22] (Except.error ("unused"))
      (fun _ => Except.error ("unused")) (fun _ => Except.error ("unused"))
      rfl rfl rfl _ rfl).1,
   (C1_stage3_failure_amended _ ("beagle") [11] [22] (Except.error ("unused"))
      (fun _ => Except.error ("unused")) (fun _ => Except.error ("unused"))
      rfl rfl rfl _ rfl).2.2.2.2.1⟩

/-- C3 counterexample: a job started with the external API credential unset
does NOT fail immediately with no partial state: the classifier swallows
the missing-key `ValueError` and returns the default breed, which is
persisted (`detectedBreed = golden_retriever`), and the job then fails at
stage 1 with the credential error wrapped as a stage-1 failure. -/
theorem C3_missing_key_counterexample :
    (run_job_final
        { id := 1, user_id := 1, original_image_data := [0],
          pipeline_type := some ("gpt_only") }
        ("gpt_only") none (Except.ok ("beagle")) 0
        (Except.ok [1]) (Except.ok [2]) (fun _ => Except.ok [3]) (fun _ => Except.ok [4])
        (fun _ => Except.ok [5]) (fun _ => Except.ok [6])).breed_detected
      = some ("golden_retriever")
    ∧ (run_job_final
        { id := 1, user_id := 1, original_image_data := [0],
          pipeline_type := some ("gpt_only") }
        ("gpt_only") none (Except.ok ("beagle")) 0
        (Except.ok [1]) (Except.ok [2]) (fun _ => Except.ok [3]) (fun _ => Except.ok [4])
        (fun _ => Except.ok [5]) (fun _ => Except.ok [6])).breed_detected ≠ none
    ∧ (run_job_final
        { id := 1, user_id := 1, original_image_data := [0],
          pipeline_type := some ("gpt_only") }
        ("gpt_only") none (Except.ok ("beagle")) 0
        (Except.ok [1]) (Except.ok [2]) (fun _ => Except.ok [3]) (fun _ => Except.ok [4])
        (fun _ => Except.ok [5]) (fun _ => Except.ok [6])).error_message
      = some ("Error: Stage 1 Error (adding ears): OPENAI_API_KEY is not set. Please check your .env file.") := by
  refine ⟨?_, ?_, ?_⟩ <;> decide

/-- C3 amended: with the credential unset, every job — whatever its
pipeline kind and oracle outcomes — persists the fallback breed
`golden_retriever` and then fails at stage 1 with the credential message
wrapped in the stage-1 error; no stage image is ever set. -/
theorem C3_missing_key_amended (rec : GeneratedImage) (pt : String)
    (visionResult : Except String String) (randIdx : Nat)
    (dalle1 gpt1 : Except String (List Nat))
    (dalle2 gpt2 finEnhance finBody : List Nat → Except String (List Nat))
    (hr1 : rec.image_1_data = none) (hr2 : rec.image_2_data = none)
    (hr3 : rec.final_dog_image_data = none) :
    (run_job_final rec pt none visionResult randIdx dalle1 gpt1 dalle2 gpt2
        finEnhance finBody).status = "error"
    ∧ (run_job_final rec pt none visionResult randIdx dalle1 gpt1 dalle2 gpt2
        finEnhance finBody).breed_detected = some ("golden_retriever")
    ∧ (run_job_final rec pt none visionResult randIdx dalle1 gpt1 dalle2 gpt2
        finEnhance finBody).error_message
      = some ("Error: Stage 1 Error (adding ears): OPENAI_API_KEY is not set. Please check your .env file.")
    ∧ (run_job_final rec pt none visionResult randIdx dalle1 gpt1 dalle2 gpt2
        finEnhance finBody).image_1_data = none
    ∧ (run_job_final rec pt none visionResult randIdx dalle1 gpt1 dalle2 gpt2
        finEnhance finBody).image_2_data = none
    ∧ (run_job_final rec pt none visionResult randIdx dalle1 gpt1 dalle2 gpt2
        finEnhance finBody).final_dog_image_data = none := by
  have hrun : run_job_final rec pt none visionResult randIdx dalle1 gpt1 dalle2 gpt2
      finEnhance finBody
      = process_final rec ("golden_retriever")
        (Except.error ("Stage 1 Error (adding ears): OPENAI_API_KEY is not set. Please check your .env file.")) := by
    unfold run_job_final run_job process_final
    have hgen : generate_transformation_images pt
        (stage_call none dalle1) (stage_call none gpt1)
        (fun b => stage_call none (dalle2 b)) (fun b => stage_call none (gpt2 b))
        (fun b => stage_call none (finEnhance b)) (fun b => stage_call none (finBody b))
        = Except.error ("Stage 1 Error (adding ears): OPENAI_API_KEY is not set. Please check your .env file.") := by
      unfold generate_transformation_images stage_call
      by_cases hpt : pt = "dalle_gpt" <;> simp [hpt]
    rw [hgen]
    rfl
  rw [hrun]
  exact ⟨rfl, rfl, rfl, hr1, hr2, hr3⟩

/-- C3 amended witness: the amended statement at the counterexample input. -/
theorem C3_missing_key_amended_witness :
    (run_job_final
        { id := 1, user_id := 1, original_image_data := [0],
          pipeline_type := some ("gpt_only") }
        ("gpt_only") none (Except.ok ("beagle")) 0
        (Except.ok [1]) (Except.ok [2]) (fun _ => Except.ok [3]) (fun _ => Except.ok [4])
        (fun _ => Except.ok [5]) (fun _ => Except.ok [6])).status = "error" :=
  (C3_missing_key_amended
    { id := 1, user_id := 1, original_image_data := [0], pipeline_type := some ("gpt_only") }
    ("gpt_only") (Except.ok ("beagle")) 0 (Except.ok [1]) (Except.ok [2])
    (fun _ => Except.ok [3]) (fun _ => Except.ok [4])
    (fun _ => Except.ok [5]) (fun _ => Except.ok [6]) rfl rfl rfl).1

/-- C6: an upload selecting Both creates exactly two jobs in the single
creation commit, sharing one `batchKey` (`"<uid>_<timestamp>"`), carrying
the distinct pipeline kinds `dalle_gpt` and `gpt_only`, both holding the
identical uploaded bytes; and each job's subsequent background run rewrites
only its own row, so one run's outcome (including failure) never changes
any other job's persisted state. -/
theorem C6_both_mode_batch (uid id1 id2 : Nat) (fileData : List Nat) (ts : String)
    (db : Nat → Option GeneratedImage) (jobId otherId : Nat) (pt : String)
    (apiKey : Option String) (visionResult : Except String String) (randIdx : Nat)
    (dalle1 gpt1 : Except String (List Nat))
    (dalle2 gpt2 finEnhance finBody : List Nat → Except String (List Nat))
    (hother : otherId ≠ jobId) :
    (upload_created_jobs uid fileData (some ("both")) ts id1 id2).length = 2
    ∧ (∃ j1 j2, upload_created_jobs uid fileData (some ("both")) ts id1 id2 = [j1, j2]
        ∧ j1.batch_id = some (toString uid ++ "_" ++ ts)
        ∧ j2.batch_id = j1.batch_id
        ∧ j1.pipeline_type = some ("dalle_gpt")
        ∧ j2.pipeline_type = some ("gpt_only")
        ∧ j1.pipeline_type ≠ j2.pipeline_type
        ∧ j1.original_image_data = fileData
        ∧ j2.original_image_data = fileData
        ∧ j1.status = "uploaded" ∧ j2.status = "uploaded")
    ∧ db_run_job db jobId pt apiKey visionResult randIdx dalle1 gpt1 dalle2 gpt2
        finEnhance finBody otherId = db otherId := by
  refine ⟨rfl, ⟨_, _, rfl, rfl, rfl, rfl, rfl, by simp, rfl, rfl, rfl, rfl⟩, ?_⟩
  unfold db_run_job
  match db jobId with
  | none => rfl
  | some rec => simp [hother]

/-- C6 witness: the whole statement at concrete ids, with the other job's
row surviving a failing run of the first unchanged. -/
theorem C6_both_mode_batch_witness :
    (upload_created_jobs 1 [9] (some ("both")) ("20240101_000000") 10 11).length = 2
    ∧ (∃ j1 j2, upload_created_jobs 1 [9] (some ("both")) ("20240101_000000") 10 11 = [j1, j2]
        ∧ j1.batch_id = some (toString 1 ++ "_" ++ ("20240101_000000"))
        ∧ j2.batch_id = j1.batch_id
        ∧ j1.pipeline_type = some ("dalle_gpt")
        ∧ j2.pipeline_type = some ("gpt_only")
        ∧ j1.pipeline_type ≠ j2.pipeline_type
        ∧ j1.original_image_data = [9]
        ∧ j2.original_image_data = [9]
        ∧ j1.status = "uploaded" ∧ j2.status = "uploaded")
    ∧ db_run_job (fun _ => none) 10 ("dalle_gpt") (some ("k")) (Except.ok ("beagle")) 0
        (Except.error ("boom")) (Except.error ("boom"))
        (fun _ => Except.error ("boom")) (fun _ => Except.error ("boom"))
        (fun _ => Except.error ("boom")) (fun _ => Except.error ("boom")) 11
      = (fun _ => none) 11 :=
  C6_both_mode_batch 1 10 11 [9] ("20240101_000000") (fun _ => none) 10 11 ("dalle_gpt")
    (some ("k")) (Except.ok ("beagle")) 0 (Except.error ("boom")) (Except.error ("boom"))
    (fun _ => Except.error ("boom")) (fun _ => Except.error ("boom"))
    (fun _ => Except.error ("boom")) (fun _ => Except.error ("boom")) (by decide)

/-- C9: strategy selection is a binary check against the single value
`dalle_gpt`: a pipeline run under any other pipeline-kind string — garbage
included — behaves exactly as the `gpt_only` strategy at every stage; the
upload boundary accepts any unknown pipeline-kind value verbatim into the
created row (no validation rejects it) and defaults a missing form
selection to `gpt_only`. -/
theorem C9_strategy_dispatch_binary (pt : String) (hpt : pt ≠ "dalle_gpt")
    (hboth : pt ≠ "both")
    (dalle1 gpt1 : Except String (List Nat))
    (dalle2 gpt2 finEnhance finBody : List Nat → Except String (List Nat))
    (uid id1 id2 : Nat) (fileData : List Nat) (ts : String) :
    generate_transformation_images pt dalle1 gpt1 dalle2 gpt2 finEnhance finBody
      = generate_transformation_images ("gpt_only") dalle1 gpt1 dalle2 gpt2 finEnhance finBody
    ∧ upload_created_jobs uid fileData (some pt) ts id1 id2
      = [{ id := id1, user_id := uid, original_image_data := fileData,
           pipeline_type := some pt }]
    ∧ upload_created_jobs uid fileData none ts id1 id2
      = [{ id := id1, user_id := uid, original_image_data := fileData,
           pipeline_type := some ("gpt_only") }] := by
  refine ⟨?_, ?_, ?_⟩
  · unfold generate_transformation_images
    rw [if_neg hpt, if_neg (by decide)]
    cases gpt1 with
    | error e => rfl
    | ok b1 =>
      simp only
      rw [if_neg hpt, if_neg (by decide)]
      cases gpt2 b1 with
      | error e => rfl
      | ok b2 =>
        simp only
        rw [if_neg hpt, if_neg (by decide)]
  · unfold upload_created_jobs
    simp [hboth]
  · rfl

/-- C9 witness: a garbage pipeline kind runs as `gpt_only` and is stored
verbatim by the upload. -/
theorem C9_strategy_dispatch_binary_witness :
    generate_transformation_images ("garbage") (Except.error ("d1")) (Except.ok [1])
        (fun _ => Except.error ("d2")) (fun _ => Except.ok [2])
        (fun _ => Except.error ("d3")) (fun _ => Except.ok [3])
      = generate_transformation_images ("gpt_only") (Except.error ("d1")) (Except.ok [1])
        (fun _ => Except.error ("d2")) (fun _ => Except.ok [2])
        (fun _ => Except.error ("d3")) (fun _ => Except.ok [3])
    ∧ upload_created_jobs 1 [9] (some ("garbage")) ("ts") 10 11
      = [{ id := 10, user_id := 1, original_image_data := [9],
           pipeline_type := some ("garbage") }] :=
  ⟨(C9_strategy_dispatch_binary ("garbage") (by decide) (by decide)
      (Except.error ("d1")) (Except.ok [1]) (fun _ => Except.error ("d2"))
      (fun _ => Except.ok [2]) (fun _ => Except.error ("d3")) (fun _ => Except.ok [3])
      1 10 11 [9] ("ts")).1,
   (C9_strategy_dispatch_binary ("garbage") (by decide) (by decide)
      (Except.error ("d1")) (Except.ok [1]) (fun _ => Except.error ("d2"))
      (fun _ => Except.ok [2]) (fun _ => Except.error ("d3")) (fun _ => Except.ok [3])
      1 10 11 [9] ("ts")).2.1⟩

end ShaggyDog
